import Mathlib

/-!
Shallow embedding of the `tickets` Discord-bot module (src/main.py) for
verification of the specification claims.

The module keeps its state in four SQLite tables (created in
`Tickets.setup_db`); we embed each table as a Lean list of row structures
inside a `DB` record, and each slash command / lifecycle operation as a pure
function from (`DB`, arguments) to (result, `DB`).

Modelling conventions, justified against the source:
* SQLite rows are returned in rowid (insertion) order for the plain
  `SELECT ... WHERE` queries used here, so `List.find?` models `fetchone`
  and `List.filter` models `fetchall`.
* `INTEGER PRIMARY KEY AUTOINCREMENT` columns are modelled by `next…Id`
  counters which only ever grow (AUTOINCREMENT never reuses ids).
* The code opens a connection per command and calls `db.commit()` exactly
  once at the very end of the mutating path; an uncaught exception
  (`sqlite3.IntegrityError`, `ValueError`) skips the commit and the
  connection is closed, rolling every statement of the command back.
  Hence a failing command returns the *original* `DB`.
* `PRAGMA foreign_keys` is never enabled, so the `ON DELETE CASCADE`
  clause on `ticket_buttons.panel_id` is inert: `delete_panel` removes only
  the panel row, and `delete_button` leaves `ticket_button_roles` rows in
  place.  The model reproduces this.
* Discord-side effects (channel/thread creation, messages, the 5-second
  delay) do not touch the database; they are modelled only where they feed
  back into state: channel creation yields a fresh channel id, and a
  successful close deletes the ticket channel.
-/

namespace Tickets

/-- Decidable equality for `Except`, used to evaluate parser results on
concrete inputs. -/
instance {ε α : Type} [DecidableEq ε] [DecidableEq α] : DecidableEq (Except ε α) := fun x y =>
  match x, y with
  | .ok a, .ok b => if h : a = b then isTrue (by rw [h]) else isFalse (by simp [h])
  | .error a, .error b => if h : a = b then isTrue (by rw [h]) else isFalse (by simp [h])
  | .ok _, .error _ => isFalse (by simp)
  | .error _, .ok _ => isFalse (by simp)

/-- Row of the `tickets` table: `channel_id INTEGER PRIMARY KEY, guild_id,
user_id, created_at TIMESTAMP, closed_at TIMESTAMP, button_id INTEGER`.
Timestamps are abstracted to `Nat`. `closed_at` and `button_id` are nullable. -/
structure TicketRow where
  channel_id : Nat
  guild_id : Nat
  user_id : Nat
  created_at : Nat
  closed_at : Option Nat
  button_id : Option Nat
deriving Repr, DecidableEq

/-- Row of the `ticket_buttons` table (see the DDL in `Tickets.setup_db`):
`id INTEGER PRIMARY KEY AUTOINCREMENT, panel_id, button_label, ticket_title,
ticket_message, button_position CHECK(BETWEEN 1 AND 3), button_emoji,
button_style CHECK(IN six styles), ticket_color`. -/
structure ButtonRow where
  id : Nat
  panel_id : Nat
  button_label : Option String
  ticket_title : Option String
  ticket_message : Option String
  button_position : Nat
  button_emoji : Option String
  button_style : Option String
  ticket_color : Option String
deriving Repr, DecidableEq

/-- Row of the `ticket_panels` table: `id INTEGER PRIMARY KEY AUTOINCREMENT,
guild_id, panel_name, panel_title, panel_description, channel_id, message_id,
category_id, log_channel_id, UNIQUE(guild_id, panel_name)`. -/
structure PanelRow where
  id : Nat
  guild_id : Nat
  panel_name : String
  panel_title : Option String
  panel_description : Option String
  channel_id : Option Nat
  message_id : Option Nat
  category_id : Option Nat
  log_channel_id : Option Nat
deriving Repr, DecidableEq

/-- Row of the `ticket_button_roles` table: `id INTEGER PRIMARY KEY
AUTOINCREMENT, button_id, role_id, UNIQUE(button_id, role_id)`.
`role_id` is an `Int` because role tokens are parsed with Python `int()`,
which accepts signed values. -/
structure RoleRow where
  id : Nat
  button_id : Nat
  role_id : Int
deriving Repr, DecidableEq

/-- The whole database file `db/tickets.db`. -/
structure DB where
  tickets : List TicketRow := []
  ticket_buttons : List ButtonRow := []
  ticket_panels : List PanelRow := []
  ticket_button_roles : List RoleRow := []
  nextTicketButtonId : Nat := 1
  nextPanelId : Nat := 1
  nextRoleRowId : Nat := 1
deriving Repr, DecidableEq

/-- `Tickets.get_ticket_id` (src/main.py line 65):
`return ticket_channel_id & 0x3FF ^ (ticket_channel_id >> 10) & 0x3FF`.
Python precedence: `&` binds tighter than `^`, so this is
`(c & 0x3FF) ^ ((c >> 10) & 0x3FF)`. Channel ids are non-negative. -/
def get_ticket_id (ticket_channel_id : Nat) : Nat :=
  (ticket_channel_id &&& 0x3FF) ^^^ ((ticket_channel_id >>> 10) &&& 0x3FF)

/-- Python `str.split(',')` over the character list: `"a,b"` ↦
`["a","b"]`, `""` ↦ `[""]`, a string without commas is a single token. -/
def splitCommas : List Char → List (List Char)
  | [] => [[]]
  | c :: rest =>
    let r := splitCommas rest
    if c = ',' then [] :: r
    else
      match r with
      | [] => [[c]]
      | h :: t => (c :: h) :: t

/-- Python `str.strip()`: drop leading and trailing whitespace. (Python
strips a slightly larger whitespace set than `Char.isWhitespace`, e.g.
form feeds; immaterial to the claims.) -/
def stripChars (l : List Char) : List Char :=
  ((l.dropWhile Char.isWhitespace).reverse.dropWhile Char.isWhitespace).reverse

/-- Numeric value of an all-digit character list. -/
def digitsVal (l : List Char) : Nat :=
  l.foldl (fun n c => 10 * n + (c.toNat - 48)) 0

/-- Model of Python `int(str)`: surrounding whitespace is stripped, then an
optional single `+`/`-` sign followed by at least one decimal digit.
(Python's `int` additionally accepts underscore digit separators and
non-ASCII decimal digits; those exotic forms are not modelled and no claim
depends on them.) Returns `none` where Python raises `ValueError`. -/
def pyInt (l : List Char) : Option Int :=
  let t := stripChars l
  let neg := t.head? == some '-'
  let core := if neg || t.head? == some '+' then t.drop 1 else t
  if !core.isEmpty && core.all Char.isDigit then
    some (if neg then -(digitsVal core : Int) else (digitsVal core : Int))
  else
    none

/-- `role_str.startswith('<@&')`. -/
def startsMention : List Char → Bool
  | '<' :: '@' :: '&' :: _ => true
  | _ => false

/-- `role_str.endswith('>')`. -/
def endsGt (t : List Char) : Bool :=
  t.getLast? == some '>'

/-- The role-token loop of `Tickets.setup_button` (src/main.py lines
276-285), over the already-comma-split token list.  A stripped token of
mention shape `<@&…>` has its interior `role_str[3:-1]` passed to `int()`
*outside* the `try/except ValueError`, so a non-integer interior raises and
aborts the whole command (modelled as `Except.error`).  Any other token is
parsed by `int()` inside the `try`, and on `ValueError` is skipped via
`continue`. -/
def parseRoleTokens : List (List Char) → Except Unit (List Int)
  | [] => .ok []
  | tok :: rest =>
    let t := stripChars tok
    if startsMention t && endsGt t then
      match pyInt ((t.drop 3).dropLast) with
      | some n =>
        match parseRoleTokens rest with
        | .ok ns => .ok (n :: ns)
        | .error e => .error e
      | none => .error ()
    else
      match pyInt t with
      | some n =>
        match parseRoleTokens rest with
        | .ok ns => .ok (n :: ns)
        | .error e => .error e
      | none => parseRoleTokens rest

/-- `role_ids` computed by `Tickets.setup_button` from the `support_roles`
string: the empty string is falsy in Python so the loop body is skipped
entirely (`role_ids = []`); otherwise the string is split on `','`. -/
def parseSupportRoles (s : String) : Except Unit (List Int) :=
  if s.data.isEmpty then .ok [] else parseRoleTokens (splitCommas s.data)

/-- `discord.ButtonStyle`: the six canonical members selectable for the
`button_style` command argument (aliases such as `blurple`/`url` share the
member object of the canonical name in discord.py's enum implementation). -/
inductive ButtonStyle where
  | primary | secondary | success | danger | link | premium
deriving Repr, DecidableEq

/-- `button_style.name.lower()` for each member. -/
def ButtonStyle.lowerName : ButtonStyle → String
  | .primary => "primary"
  | .secondary => "secondary"
  | .success => "success"
  | .danger => "danger"
  | .link => "link"
  | .premium => "premium"

/-- `style_name = button_style.name.lower() if button_style else
self.default_button_color` (src/main.py line 244), where
`default_button_color = "primary"`. A `ButtonStyle` member is always truthy
and `None` is falsy, so this is exactly an is-`None` test. -/
def styleStr : Option ButtonStyle → String
  | some s => s.lowerName
  | none => "primary"

/-- The style enumeration of the `CHECK(button_style IN (…))` constraint in
the `ticket_buttons` DDL. -/
def allowedStyles : List String :=
  ["primary", "secondary", "success", "danger", "link", "premium"]

/-- SQL `COALESCE(new, old)` for the two-argument uses in the upserts. -/
def coalesce {α : Type} : Option α → Option α → Option α
  | some v, _ => some v
  | none, old => old

/-- `SELECT … FROM ticket_panels WHERE guild_id = ? AND panel_name = ?`
followed by `fetchone` (the `UNIQUE(guild_id, panel_name)` constraint keeps
at most one match in reachable databases). -/
def findPanel (db : DB) (guild_id : Nat) (panel_name : String) : Option PanelRow :=
  db.ticket_panels.find? (fun p => p.guild_id == guild_id && p.panel_name == panel_name)

/-- The `WHERE panel_id = ? AND button_position = ?` predicate used both by
the button lookup and by the upsert's conflict target. -/
def buttonKey (panel_id position : Nat) (b : ButtonRow) : Bool :=
  b.panel_id == panel_id && b.button_position == position

/-- `SELECT … FROM ticket_buttons WHERE panel_id = ? AND button_position = ?`
followed by `fetchone`. -/
def findButton (db : DB) (panel_id position : Nat) : Option ButtonRow :=
  db.ticket_buttons.find? (buttonKey panel_id position)

/-- `SELECT … FROM tickets WHERE channel_id = ?` followed by `fetchone`
(`channel_id` is the primary key). -/
def findTicket (db : DB) (channel_id : Nat) : Option TicketRow :=
  db.tickets.find? (fun t => t.channel_id == channel_id)

/-- `SELECT role_id FROM ticket_button_roles WHERE button_id = ?` with a
possibly-NULL parameter: in SQL, `button_id = NULL` matches no row, so a
`none` button reference yields the empty list. -/
def rolesOfButton (db : DB) : Option Nat → List Int
  | none => []
  | some b => (db.ticket_button_roles.filter (fun r => r.button_id == b)).map (·.role_id)

/-- Arguments of the `/tickets panel` command `Tickets.setup_panel`.
Channel objects are represented by their ids. -/
structure PanelArgs where
  guild_id : Nat
  panel_name : String
  category : Option Nat := none
  log_channel : Option Nat := none
  panel_title : Option String := none
  panel_description : Option String := none
deriving Repr, DecidableEq

/-- Observable outcome of `Tickets.setup_panel`: the configuration display
(`log.client`), the not-configured failure (`log.failure`), or the success
notification. -/
inductive PanelResult where
  | showConfig (panel_title panel_description : Option String)
      (category_id log_channel_id : Option Nat)
  | notConfigured
  | success
deriving Repr, DecidableEq

/-- `Tickets.setup_panel` (src/main.py lines 125-172). If every optional
argument is `None` it only displays (existing panel) or fails (no panel),
without writing. Otherwise it merges supplied values over the stored ones
(insert path takes the supplied values as-is) and performs
`INSERT … ON CONFLICT(guild_id, panel_name) DO UPDATE` of the four
configuration columns; `channel_id`/`message_id` are untouched. -/
def setup_panel (db : DB) (a : PanelArgs) : PanelResult × DB :=
  if a.category = none ∧ a.log_channel = none ∧ a.panel_title = none ∧
      a.panel_description = none then
    match findPanel db a.guild_id a.panel_name with
    | some p =>
      (.showConfig p.panel_title p.panel_description p.category_id p.log_channel_id, db)
    | none => (.notConfigured, db)
  else
    match findPanel db a.guild_id a.panel_name with
    | some p =>
      (.success,
        { db with
          ticket_panels := db.ticket_panels.map (fun q =>
            if q.guild_id == a.guild_id && q.panel_name == a.panel_name then
              { q with
                panel_title := coalesce a.panel_title p.panel_title
                panel_description := coalesce a.panel_description p.panel_description
                category_id := coalesce a.category p.category_id
                log_channel_id := coalesce a.log_channel p.log_channel_id }
            else q) })
    | none =>
      (.success,
        { db with
          ticket_panels := db.ticket_panels ++
            [{ id := db.nextPanelId
               guild_id := a.guild_id
               panel_name := a.panel_name
               panel_title := a.panel_title
               panel_description := a.panel_description
               channel_id := none
               message_id := none
               category_id := a.category
               log_channel_id := a.log_channel }]
          nextPanelId := db.nextPanelId + 1 })

/-- Arguments of the `/tickets button` command `Tickets.setup_button`.
`position` is declared as `app_commands.Range[int, 1, 3]` in the source;
the model keeps it as a raw `Nat` and lets the table's CHECK constraint
reject out-of-range values, as SQLite would. -/
structure ButtonArgs where
  guild_id : Nat
  panel_name : String
  position : Nat
  button_label : Option String := none
  ticket_title : Option String := none
  ticket_message : Option String := none
  button_emoji : Option String := none
  button_style : Option ButtonStyle := none
  ticket_color : Option String := none
  support_roles : Option String := none
deriving Repr, DecidableEq

/-- Observable outcome of `Tickets.setup_button`. `integrityError` stands
for an uncaught `sqlite3.IntegrityError` (constraint violation) and
`valueError` for the uncaught `ValueError` of the mention-interior `int()`;
both abort the command before `commit`, rolling back every statement. -/
inductive ButtonResult where
  | panelNotFound
  | showButton (button_label ticket_title ticket_message button_emoji
      button_style ticket_color : Option String) (roles : List Int)
  | showNoButton
  | integrityError
  | valueError
  | success
deriving Repr, DecidableEq

/-- The `DO UPDATE SET` assignment list of the button upsert (lines
252-258), applied to the conflicting row: each configurable column gets
`COALESCE(excluded.col, col)`. `button_style` is effectively always
overwritten because the bound `style_name` is never NULL (it defaults to
`"primary"`). The key columns `panel_id` and `button_position` are not in
the SET list. -/
def applyButtonUpd (a : ButtonArgs) (q : ButtonRow) : ButtonRow :=
  { q with
    button_label := coalesce a.button_label q.button_label
    ticket_title := coalesce a.ticket_title q.ticket_title
    ticket_message := coalesce a.ticket_message q.ticket_message
    button_emoji := coalesce a.button_emoji q.button_emoji
    button_style := coalesce (some (styleStr a.button_style)) q.button_style
    ticket_color := coalesce a.ticket_color q.ticket_color }

/-- The row inserted by the button upsert when there is no conflict
(lines 248-250). -/
def newButtonRow (db : DB) (panel_id : Nat) (a : ButtonArgs) : ButtonRow :=
  { id := db.nextTicketButtonId
    panel_id := panel_id
    button_label := a.button_label
    ticket_title := a.ticket_title
    ticket_message := a.ticket_message
    button_position := a.position
    button_emoji := a.button_emoji
    button_style := some (styleStr a.button_style)
    ticket_color := a.ticket_color }

/-- The `INSERT … ON CONFLICT(panel_id, button_position) DO UPDATE` of
`Tickets.setup_button` (lines 247-259), given the enclosing panel's id. -/
def upsertButtonRow (db : DB) (panel_id : Nat) (a : ButtonArgs) : DB :=
  match findButton db panel_id a.position with
  | some _ =>
    { db with
      ticket_buttons := db.ticket_buttons.map (fun q =>
        if buttonKey panel_id a.position q then applyButtonUpd a q else q) }
  | none =>
    { db with
      ticket_buttons := db.ticket_buttons ++ [newButtonRow db panel_id a]
      nextTicketButtonId := db.nextTicketButtonId + 1 }

/-- The role-insertion loop of `Tickets.setup_button` (lines 288-292): each
`INSERT INTO ticket_button_roles` must satisfy `UNIQUE(button_id, role_id)`;
a violation raises `IntegrityError` (modelled as `none`). -/
def insertRoleRows (db : DB) (button_id : Nat) : List Int → Option DB
  | [] => some db
  | r :: rest =>
    if db.ticket_button_roles.any (fun q => q.button_id == button_id && q.role_id == r) then
      none
    else
      insertRoleRows
        { db with
          ticket_button_roles := db.ticket_button_roles ++
            [{ id := db.nextRoleRowId, button_id := button_id, role_id := r }]
          nextRoleRowId := db.nextRoleRowId + 1 }
        button_id rest

/-- The kind of uncaught exception that can escape the `support_roles`
block. -/
inductive RolesErr where
  | integrityError
  | valueError
deriving Repr, DecidableEq

/-- How each uncaught exception surfaces as a command outcome. -/
def RolesErr.toResult : RolesErr → ButtonResult
  | .integrityError => .integrityError
  | .valueError => .valueError

/-- The `support_roles` update block of `Tickets.setup_button` (lines
262-292), run only when the argument is present: look up the button id at
(panel, position), delete all its role rows, parse the role tokens, and
re-insert. An error anywhere aborts the whole command. -/
def rolesPhase (db : DB) (panel_id position : Nat) (s : String) :
    Except RolesErr DB :=
  match findButton db panel_id position with
  | none => .error .integrityError
  | some b =>
    match parseSupportRoles s with
    | .error _ => .error .valueError
    | .ok ids =>
      match insertRoleRows
          { db with
            ticket_button_roles :=
              db.ticket_button_roles.filter (fun r => !(r.button_id == b.id)) }
          b.id ids with
      | none => .error .integrityError
      | some db'' => .ok db''

/-- The mutating tail of `Tickets.setup_button` (lines 243-296): the button
row is upserted (the `CHECK` constraints of the DDL are modelled up front;
they only ever bite on `button_position`, since the bound style string is
always one of the six enum names) and, when `support_roles` is present, the
role bindings are replaced. On an uncaught error the original database is
returned (connection closed without commit = rollback). -/
def setup_button_mut (db : DB) (panel_id : Nat) (a : ButtonArgs) :
    ButtonResult × DB :=
  if ¬(1 ≤ a.position ∧ a.position ≤ 3) then (.integrityError, db)
  else if ¬(styleStr a.button_style ∈ allowedStyles) then (.integrityError, db)
  else
    match a.support_roles with
    | none => (.success, upsertButtonRow db panel_id a)
    | some s =>
      match rolesPhase (upsertButtonRow db panel_id a) panel_id a.position s with
      | .error e => (e.toResult, db)
      | .ok db2 => (.success, db2)

/-- `Tickets.setup_button` (src/main.py lines 196-296): the panel must
exist; with every optional argument absent the current configuration is
displayed without writing; otherwise the mutating tail runs. -/
def setup_button (db : DB) (a : ButtonArgs) : ButtonResult × DB :=
  match findPanel db a.guild_id a.panel_name with
  | none => (.panelNotFound, db)
  | some panel =>
    if a.button_label = none ∧ a.ticket_title = none ∧ a.ticket_message = none ∧
        a.button_emoji = none ∧ a.button_style = none ∧ a.ticket_color = none ∧
        a.support_roles = none then
      match findButton db panel.id a.position with
      | some b =>
        (.showButton b.button_label b.ticket_title b.ticket_message
          b.button_emoji b.button_style b.ticket_color
          (rolesOfButton db (some b.id)), db)
      | none => (.showNoButton, db)
    else
      setup_button_mut db panel.id a

/-- Outcome of the delete commands. -/
inductive DeleteResult where
  | notFound
  | success
deriving Repr, DecidableEq

/-- `Tickets.delete_panel` (lines 177-191): fails if the panel is absent,
otherwise deletes the panel row. Foreign keys are never enabled, so the
`ON DELETE CASCADE` on `ticket_buttons` does not fire: button and role
rows are left in place. -/
def delete_panel (db : DB) (guild_id : Nat) (panel_name : String) :
    DeleteResult × DB :=
  match findPanel db guild_id panel_name with
  | none => (.notFound, db)
  | some _ =>
    (.success,
      { db with
        ticket_panels := db.ticket_panels.filter (fun p =>
          !(p.guild_id == guild_id && p.panel_name == panel_name)) })

/-- The ids selected by `delete_button`'s join of `ticket_buttons` with
`ticket_panels` on the given guild, panel name and position. -/
def buttonIdsFor (db : DB) (guild_id : Nat) (panel_name : String) (position : Nat) :
    List Nat :=
  (db.ticket_buttons.filter (fun b =>
    b.button_position == position &&
    db.ticket_panels.any (fun p =>
      p.id == b.panel_id && p.guild_id == guild_id && p.panel_name == panel_name))).map (·.id)

/-- `Tickets.delete_button` (lines 302-327): fails if no button matches the
join, otherwise deletes the matching button rows. Role rows are not
removed (no cascade). -/
def delete_button (db : DB) (guild_id : Nat) (panel_name : String) (position : Nat) :
    DeleteResult × DB :=
  if (buttonIdsFor db guild_id panel_name position).isEmpty then (.notFound, db)
  else
    (.success,
      { db with
        ticket_buttons := db.ticket_buttons.filter (fun b =>
          !((buttonIdsFor db guild_id panel_name position).contains b.id)) })

/-- Arguments of `Tickets.create_ticket` that feed the database: the ids are
handed in by the pressed `TicketPanelButton` (a synthesized default button
passes `button_id = None`), and `new_channel_id` is the id Discord assigns
to the freshly created ticket channel. -/
structure CreateArgs where
  guild_id : Nat
  user_id : Nat
  button_id : Option Nat
  panel_id : Option Nat
  new_channel_id : Nat
  now : Nat
deriving Repr, DecidableEq

/-- Observable outcome of `Tickets.create_ticket`'s database path. -/
inductive CreateResult where
  | noPanelId
  | notConfigured
  | integrityError
  | success
deriving Repr, DecidableEq

/-- The row written by `create_ticket`'s `INSERT INTO tickets` (lines
464-467): `closed_at` is not among the inserted columns, so it starts NULL. -/
def newTicketRow (a : CreateArgs) : TicketRow :=
  { channel_id := a.new_channel_id
    guild_id := a.guild_id
    user_id := a.user_id
    created_at := a.now
    closed_at := none
    button_id := a.button_id }

/-- `Tickets.create_ticket` (lines 385-470), database effects only: the
`if not panel_id` guard (Python truthiness: `None` and `0` both fail),
the category lookup with its own truthiness guard, and the final
`INSERT INTO tickets` whose `channel_id` primary key rejects duplicates.
Channel/thread creation and messages do not touch the database. -/
def create_ticket (db : DB) (a : CreateArgs) : CreateResult × DB :=
  match a.panel_id with
  | none => (.noPanelId, db)
  | some pid =>
    if pid == 0 then (.noPanelId, db)
    else
      match db.ticket_panels.find? (fun p => p.id == pid) with
      | none => (.notConfigured, db)
      | some p =>
        match p.category_id with
        | none => (.notConfigured, db)
        | some cid =>
          if cid == 0 then (.notConfigured, db)
          else if db.tickets.any (fun t => t.channel_id == a.new_channel_id) then
            (.integrityError, db)
          else
            (.success, { db with tickets := db.tickets ++ [newTicketRow a] })

/-- Arguments of `Tickets.close_ticket`: the channel the interaction was
made in, the acting user's `guild_permissions.administrator` flag and role
ids, and the wall clock. -/
structure CloseArgs where
  channel_id : Nat
  user_is_admin : Bool
  user_roles : List Int
  now : Nat
deriving Repr, DecidableEq

/-- Observable outcome of `Tickets.close_ticket`. -/
inductive CloseResult where
  | notRegistered
  | permissionDenied
  | closed
deriving Repr, DecidableEq

/-- The row transformation of `UPDATE tickets SET closed_at = ? WHERE
channel_id = ?` (lines 502-505). -/
def closeUpd (a : CloseArgs) (q : TicketRow) : TicketRow :=
  if q.channel_id == a.channel_id then { q with closed_at := some a.now } else q

/-- `Tickets.close_ticket` (lines 472-539), database effects only: look up
the ticket by channel id; collect the support roles bound to its button
(`button_id = NULL` matches nothing); unless the user is an administrator
or holds one of those roles, fail without writing; otherwise
`UPDATE tickets SET closed_at = now WHERE channel_id = ?` and commit.
Transcript posting, thread archiving and the delayed channel deletion do
not touch the database. -/
def close_ticket (db : DB) (a : CloseArgs) : CloseResult × DB :=
  match findTicket db a.channel_id with
  | none => (.notRegistered, db)
  | some t =>
    if ¬a.user_is_admin ∧
        ¬((rolesOfButton db t.button_id).any (fun r => a.user_roles.contains r)) then
      (.permissionDenied, db)
    else
      (.closed, { db with tickets := db.tickets.map (closeUpd a) })

/-- `Tickets.get_ticket_button_roles` (lines 547-566): returns `[]` when
there is no ticket row for the channel or its `button_id` is NULL, else
the button's bound role ids. Every return statement in the source yields a
list, never `None`. -/
def get_ticket_button_roles (db : DB) (channel_id : Nat) : List Int :=
  match findTicket db channel_id with
  | none => []
  | some t =>
    match t.button_id with
    | none => []
    | some b => (db.ticket_button_roles.filter (fun r => r.button_id == b)).map (·.role_id)

/-- A plain `INSERT INTO ticket_buttons` as constrained by the DDL in
`Tickets.setup_db` (lines 80-94): the `CHECK(button_position BETWEEN 1 AND
3)` and `CHECK(button_style IN (…))` constraints (a NULL style passes a
CHECK, as SQL CHECK treats unknown as pass) and the
`UNIQUE(panel_id, button_position)` constraint; the id comes from the
AUTOINCREMENT counter. -/
def insertButtonRow (db : DB) (panel_id : Nat)
    (button_label ticket_title ticket_message : Option String) (position : Nat)
    (button_emoji button_style ticket_color : Option String) : Except Unit DB :=
  if ¬(1 ≤ position ∧ position ≤ 3) then .error ()
  else if ¬(∀ s, button_style = some s → s ∈ allowedStyles) then .error ()
  else if db.ticket_buttons.any (fun b =>
      b.panel_id == panel_id && b.button_position == position) then .error ()
  else
    .ok { db with
          ticket_buttons := db.ticket_buttons ++
            [{ id := db.nextTicketButtonId
               panel_id := panel_id
               button_label := button_label
               ticket_title := ticket_title
               ticket_message := ticket_message
               button_position := position
               button_emoji := button_emoji
               button_style := button_style
               ticket_color := ticket_color }]
          nextTicketButtonId := db.nextTicketButtonId + 1 }

/-- Whole-system state: the database file plus the set of currently
existing ticket channels on the platform. -/
structure Sys where
  db : DB := {}
  channels : List Nat := []
deriving Repr, DecidableEq

/-- One invocation of a command or lifecycle operation, with all its
inputs. -/
inductive Op where
  | panel (a : PanelArgs)
  | button (a : ButtonArgs)
  | delPanel (guild_id : Nat) (panel_name : String)
  | delButton (guild_id : Nat) (panel_name : String) (position : Nat)
  | create (a : CreateArgs)
  | close (a : CloseArgs)
deriving Repr, DecidableEq

/-- Apply one operation to the system state. Environment facts baked in:
the platform assigns a *fresh* snowflake id to a newly created channel
(never equal to a live channel or to any past ticket channel), and an
interaction can only be dispatched in a channel that still exists; a
successful close deletes the ticket channel (after the 5-second delay). -/
def applyOp (s : Sys) : Op → Sys
  | .panel a => { s with db := (setup_panel s.db a).2 }
  | .button a => { s with db := (setup_button s.db a).2 }
  | .delPanel g n => { s with db := (delete_panel s.db g n).2 }
  | .delButton g n p => { s with db := (delete_button s.db g n p).2 }
  | .create a =>
    if a.new_channel_id ∈ s.channels ∨
        s.db.tickets.any (fun t => t.channel_id == a.new_channel_id) then s
    else
      { db := (create_ticket s.db a).2
        channels :=
          if (create_ticket s.db a).1 = .success then a.new_channel_id :: s.channels
          else s.channels }
  | .close a =>
    if a.channel_id ∈ s.channels then
      { db := (close_ticket s.db a).2
        channels :=
          if (close_ticket s.db a).1 = .closed then
            s.channels.filter (fun c => c ≠ a.channel_id)
          else s.channels }
    else s

/-- Run a list of operations from the empty initial state (fresh database
file), oldest first. -/
def execOps (l : List Op) : Sys := l.foldl applyOp {}

/-- The ticket row stored for a channel, if any. -/
def ticketAt (s : Sys) (channel_id : Nat) : Option TicketRow :=
  findTicket s.db channel_id

/-! ### Concrete sample states used to evaluate the theorems -/

/-- A configured panel: guild 1, name "p", ticket category 10. -/
def panelFix : PanelRow :=
  { id := 1, guild_id := 1, panel_name := "p", panel_title := none
    panel_description := none, channel_id := none, message_id := none
    category_id := some 10, log_channel_id := none }

/-- A configured button at position 1 of `panelFix`, label "A", style
`danger`. -/
def buttonFix : ButtonRow :=
  { id := 1, panel_id := 1, button_label := some "A", ticket_title := none
    ticket_message := none, button_position := 1, button_emoji := none
    button_style := some "danger", ticket_color := none }

/-- Role 7 bound to `buttonFix`. -/
def roleFix : RoleRow := { id := 1, button_id := 1, role_id := 7 }

/-- Database with one panel, one button, one role binding. -/
def dbFix : DB :=
  { tickets := [], ticket_buttons := [buttonFix], ticket_panels := [panelFix]
    ticket_button_roles := [roleFix], nextTicketButtonId := 2, nextPanelId := 2
    nextRoleRowId := 2 }

/-- An open ticket in channel 5 created from `buttonFix`. -/
def ticketFix : TicketRow :=
  { channel_id := 5, guild_id := 1, user_id := 2, created_at := 0
    closed_at := none, button_id := some 1 }

/-- `dbFix` plus the open ticket `ticketFix`. -/
def dbTicket : DB := { dbFix with tickets := [ticketFix] }

/-- An open ticket in channel 6 created from the synthesized default button
(`button_id` NULL). -/
def ticketDefaultFix : TicketRow :=
  { channel_id := 6, guild_id := 1, user_id := 2, created_at := 0
    closed_at := none, button_id := none }

/-- `dbFix` plus the default-button ticket `ticketDefaultFix`. -/
def dbTicketDefault : DB := { dbFix with tickets := [ticketDefaultFix] }

/-- A database holding only the panel, no buttons. -/
def dbPanelOnly : DB := { ticket_panels := [panelFix], nextPanelId := 2 }

/-- Button-upsert arguments creating a labelled button at a position of
panel "p". -/
def bArgsAt (pos : Nat) : ButtonArgs :=
  { guild_id := 1, panel_name := "p", position := pos, button_label := some "L" }

/-- State after creating the button at position 1. -/
def dbStep1 : DB := (setup_button dbPanelOnly (bArgsAt 1)).2

/-- State after creating the buttons at positions 1 and 2. -/
def dbStep2 : DB := (setup_button dbStep1 (bArgsAt 2)).2

/-- State after creating the buttons at positions 1, 2 and 3. -/
def dbStep3 : DB := (setup_button dbStep2 (bArgsAt 3)).2

/-- Button-upsert arguments supplying only an emoji for the stored button. -/
def emojiArgs : ButtonArgs :=
  { guild_id := 1, panel_name := "p", position := 1, button_emoji := some "E" }

/-- Button-upsert arguments with a duplicated role id. -/
def dupRolesArgs : ButtonArgs :=
  { guild_id := 1, panel_name := "p", position := 1, support_roles := some "5,5" }

/-- Button-upsert arguments with a mention-shaped token whose interior is
not an integer. -/
def badTokenArgs : ButtonArgs :=
  { guild_id := 1, panel_name := "p", position := 1,
    support_roles := some "<@&x>,5" }

/-- Button-upsert arguments replacing the bindings with role 5. -/
def oneRoleArgs : ButtonArgs :=
  { guild_id := 1, panel_name := "p", position := 1, support_roles := some "5" }

/-- Close attempt on channel 5 by a holder of role 7, not an admin. -/
def closeByRole : CloseArgs :=
  { channel_id := 5, user_is_admin := false, user_roles := [7], now := 9 }

/-- Close attempt on channel 5 by an administrator with no roles. -/
def closeByAdmin : CloseArgs :=
  { channel_id := 5, user_is_admin := true, user_roles := [], now := 9 }

/-- Close attempt on channel 5 by a non-admin holding only unbound role 8. -/
def closeByStranger : CloseArgs :=
  { channel_id := 5, user_is_admin := false, user_roles := [8], now := 9 }

/-- Close attempt on default-button channel 6 by an administrator. -/
def closeDefaultAdmin : CloseArgs :=
  { channel_id := 6, user_is_admin := true, user_roles := [], now := 9 }

/-- Close attempt on default-button channel 6 by a role holder. -/
def closeDefaultRole : CloseArgs :=
  { channel_id := 6, user_is_admin := false, user_roles := [7], now := 9 }

/-- Argument-free panel command for the existing panel "p". -/
def panelArgsP : PanelArgs := { guild_id := 1, panel_name := "p" }

/-- Argument-free panel command for the missing panel "q". -/
def panelArgsQ : PanelArgs := { guild_id := 1, panel_name := "q" }

/-! ### Invariant predicates -/

/-- Shape invariant of the `ticket_buttons` table: at most one row per
(panel_id, button_position), every position within the CHECK range 1..3,
and every stored style a non-NULL member of the CHECK style enumeration. -/
def ButtonsInvL (l : List ButtonRow) : Prop :=
  l.Pairwise (fun b1 b2 =>
    b1.panel_id ≠ b2.panel_id ∨ b1.button_position ≠ b2.button_position) ∧
  ∀ b ∈ l, (1 ≤ b.button_position ∧ b.button_position ≤ 3) ∧
    ∃ st, b.button_style = some st ∧ st ∈ allowedStyles

/-- Shape invariant of the `tickets` table relative to the live channels:
`channel_id` is a primary key (pairwise distinct), and a closed ticket's
channel no longer exists (the close path deletes it). -/
def TicketsInvL (ts : List TicketRow) (chs : List Nat) : Prop :=
  ts.Pairwise (fun t1 t2 => t1.channel_id ≠ t2.channel_id) ∧
  ∀ t ∈ ts, t.closed_at ≠ none → t.channel_id ∉ chs

/-- The combined invariant maintained by every operation. -/
def SysInv (s : Sys) : Prop :=
  TicketsInvL s.db.tickets s.channels ∧ ButtonsInvL s.db.ticket_buttons

/-! ### General lemmas about the list operations modelling the SQL -/

/-- `find?` commutes with a `map` that does not change the predicate's
verdict (an `UPDATE` that leaves the key columns alone). -/
theorem find?_map_congr {α : Type} (p : α → Bool) (f : α → α)
    (hf : ∀ x, p (f x) = p x) (l : List α) :
    (l.map f).find? p = (l.find? p).map f := by
  induction l with
  | nil => rfl
  | cons a l ih =>
    by_cases h : p a
    · rw [List.map_cons, List.find?_cons_of_pos _ (by rw [hf]; exact h),
        List.find?_cons_of_pos _ h, Option.map_some']
    · rw [List.map_cons, List.find?_cons_of_neg _ (by rw [hf]; simpa using h),
        List.find?_cons_of_neg _ (by simpa using h), ih]

/-- `find?` over an appended singleton that does not satisfy the predicate. -/
theorem find?_append_single_neg {α : Type} (p : α → Bool) (l : List α) (x : α)
    (hx : p x = false) :
    (l ++ [x]).find? p = l.find? p := by
  induction l with
  | nil => simp [List.find?, hx]
  | cons a l ih =>
    by_cases h : p a
    · simp [List.find?_cons_of_pos _ h]
    · simp only [List.cons_append, List.find?_cons_of_neg _ (by simpa using h), ih]

theorem coalesce_none {α : Type} (o : Option α) : coalesce none o = o := rfl

theorem coalesce_some {α : Type} (v : α) (o : Option α) :
    coalesce (some v) o = some v := rfl

/-- The bound style string is always one of the six enum names. -/
theorem styleStr_mem (o : Option ButtonStyle) : styleStr o ∈ allowedStyles := by
  cases o with
  | none => simp [styleStr, allowedStyles]
  | some s => cases s <;> simp [styleStr, ButtonStyle.lowerName, allowedStyles]

/-- The `DO UPDATE SET` list does not touch the key columns. -/
theorem buttonKey_applyButtonUpd (pid pos : Nat) (a : ButtonArgs) (q : ButtonRow) :
    buttonKey pid pos (applyButtonUpd a q) = buttonKey pid pos q := rfl

/-! ### Frame lemmas: which tables each operation can touch -/

theorem upsertButtonRow_frame (db : DB) (pid : Nat) (a : ButtonArgs) :
    (upsertButtonRow db pid a).tickets = db.tickets ∧
    (upsertButtonRow db pid a).ticket_panels = db.ticket_panels ∧
    (upsertButtonRow db pid a).ticket_button_roles = db.ticket_button_roles := by
  unfold upsertButtonRow
  cases findButton db pid a.position <;> simp

theorem insertRoleRows_frame (bid : Nat) (ids : List Int) :
    ∀ db db', insertRoleRows db bid ids = some db' →
      db'.tickets = db.tickets ∧ db'.ticket_buttons = db.ticket_buttons ∧
      db'.ticket_panels = db.ticket_panels := by
  induction ids with
  | nil =>
    intro db db' h
    simp only [insertRoleRows, Option.some.injEq] at h
    subst h; exact ⟨rfl, rfl, rfl⟩
  | cons r rest ih =>
    intro db db' h
    simp only [insertRoleRows] at h
    split at h
    · exact absurd h (by simp)
    · have h3 := ih _ _ h
      exact ⟨h3.1, h3.2.1, h3.2.2⟩

theorem rolesPhase_frame (db : DB) (pid pos : Nat) (s : String) (db'' : DB)
    (h : rolesPhase db pid pos s = .ok db'') :
    db''.tickets = db.tickets ∧ db''.ticket_buttons = db.ticket_buttons ∧
    db''.ticket_panels = db.ticket_panels := by
  unfold rolesPhase at h
  split at h
  · exact absurd h (by simp)
  · split at h
    · exact absurd h (by simp)
    · split at h
      · exact absurd h (by simp)
      · simp only [Except.ok.injEq] at h
        subst h
        next hins =>
          have h3 := insertRoleRows_frame _ _ _ _ hins
          exact ⟨h3.1, h3.2.1, h3.2.2⟩

theorem setup_button_mut_frame (db : DB) (pid : Nat) (a : ButtonArgs) :
    (setup_button_mut db pid a).2.tickets = db.tickets ∧
    (setup_button_mut db pid a).2.ticket_panels = db.ticket_panels := by
  unfold setup_button_mut
  split
  · exact ⟨rfl, rfl⟩
  · split
    · exact ⟨rfl, rfl⟩
    · cases hr : a.support_roles with
      | none =>
        simpa using ⟨(upsertButtonRow_frame db pid a).1,
          (upsertButtonRow_frame db pid a).2.1⟩
      | some s =>
        simp only
        cases hrp : rolesPhase (upsertButtonRow db pid a) pid a.position s with
        | error e => exact ⟨rfl, rfl⟩
        | ok db2 =>
          have h1 := rolesPhase_frame _ _ _ _ _ hrp
          have h2 := upsertButtonRow_frame db pid a
          exact ⟨h1.1.trans h2.1, h1.2.2.trans h2.2.1⟩

theorem setup_button_frame (db : DB) (a : ButtonArgs) :
    (setup_button db a).2.tickets = db.tickets ∧
    (setup_button db a).2.ticket_panels = db.ticket_panels := by
  unfold setup_button
  split
  · exact ⟨rfl, rfl⟩
  · split
    · split <;> exact ⟨rfl, rfl⟩
    · exact setup_button_mut_frame _ _ _

theorem setup_panel_frame (db : DB) (a : PanelArgs) :
    (setup_panel db a).2.tickets = db.tickets ∧
    (setup_panel db a).2.ticket_buttons = db.ticket_buttons ∧
    (setup_panel db a).2.ticket_button_roles = db.ticket_button_roles := by
  unfold setup_panel
  split
  · split <;> exact ⟨rfl, rfl, rfl⟩
  · split <;> exact ⟨rfl, rfl, rfl⟩

theorem delete_panel_frame (db : DB) (g : Nat) (n : String) :
    (delete_panel db g n).2.tickets = db.tickets ∧
    (delete_panel db g n).2.ticket_buttons = db.ticket_buttons ∧
    (delete_panel db g n).2.ticket_button_roles = db.ticket_button_roles := by
  unfold delete_panel
  split <;> exact ⟨rfl, rfl, rfl⟩

theorem delete_button_frame (db : DB) (g : Nat) (n : String) (pos : Nat) :
    (delete_button db g n pos).2.tickets = db.tickets ∧
    (delete_button db g n pos).2.ticket_panels = db.ticket_panels ∧
    (delete_button db g n pos).2.ticket_button_roles = db.ticket_button_roles := by
  unfold delete_button
  split <;> exact ⟨rfl, rfl, rfl⟩

theorem create_ticket_frame (db : DB) (a : CreateArgs) :
    (create_ticket db a).2.ticket_buttons = db.ticket_buttons ∧
    (create_ticket db a).2.ticket_panels = db.ticket_panels ∧
    (create_ticket db a).2.ticket_button_roles = db.ticket_button_roles := by
  unfold create_ticket
  split
  · exact ⟨rfl, rfl, rfl⟩
  · split
    · exact ⟨rfl, rfl, rfl⟩
    · split
      · exact ⟨rfl, rfl, rfl⟩
      · split
        · exact ⟨rfl, rfl, rfl⟩
        · split
          · exact ⟨rfl, rfl, rfl⟩
          · split <;> exact ⟨rfl, rfl, rfl⟩

theorem close_ticket_frame (db : DB) (a : CloseArgs) :
    (close_ticket db a).2.ticket_buttons = db.ticket_buttons ∧
    (close_ticket db a).2.ticket_panels = db.ticket_panels ∧
    (close_ticket db a).2.ticket_button_roles = db.ticket_button_roles := by
  unfold close_ticket
  split
  · exact ⟨rfl, rfl, rfl⟩
  · split <;> exact ⟨rfl, rfl, rfl⟩

/-! ### Characterization of the button upsert -/

theorem find?_append_none {α : Type} (p : α → Bool) (l l2 : List α)
    (h : l.find? p = none) : (l ++ l2).find? p = l2.find? p := by
  induction l with
  | nil => simp
  | cons a l ih =>
    by_cases hp : p a
    · rw [List.find?_cons_of_pos _ hp] at h; exact absurd h (by simp)
    · rw [List.find?_cons_of_neg _ (by simpa using hp)] at h
      rw [List.cons_append, List.find?_cons_of_neg _ (by simpa using hp)]
      exact ih h

/-- What the upsert leaves at the conflict-target key: the coalesced update
of the conflicting row, or the fresh row. -/
theorem upsertButtonRow_find (db : DB) (pid : Nat) (a : ButtonArgs) :
    findButton (upsertButtonRow db pid a) pid a.position =
      (match findButton db pid a.position with
        | some b => some (applyButtonUpd a b)
        | none => some (newButtonRow db pid a)) := by
  unfold upsertButtonRow
  cases hf : findButton db pid a.position with
  | some b =>
    unfold findButton at hf ⊢
    simp only
    rw [find?_map_congr (buttonKey pid a.position) _
      (by
        intro x
        by_cases hk : buttonKey pid a.position x
        · simp [hk, buttonKey_applyButtonUpd]
        · simp [hk]), hf]
    have hb : buttonKey pid a.position b = true := List.find?_some hf
    simp [hb]
  | none =>
    unfold findButton at hf ⊢
    simp only
    rw [find?_append_none _ _ _ hf]
    have hk : buttonKey pid a.position (newButtonRow db pid a) = true := by
      simp [buttonKey, newButtonRow]
    simp [List.find?, hk]

theorem insertRoleRows_filter (bid : Nat) (ids : List Int) :
    ∀ db db', insertRoleRows db bid ids = some db' →
      (db'.ticket_button_roles.filter (fun r => r.button_id == bid)).map (·.role_id) =
        (db.ticket_button_roles.filter (fun r => r.button_id == bid)).map (·.role_id)
          ++ ids := by
  induction ids with
  | nil =>
    intro db db' h
    simp only [insertRoleRows, Option.some.injEq] at h
    subst h; simp
  | cons r rest ih =>
    intro db db' h
    simp only [insertRoleRows] at h
    split at h
    · exact absurd h (by simp)
    · have h3 := ih _ _ h
      rw [h3]
      simp [List.filter_append, List.map_append]

/-- A successful `support_roles` block: the button existed at the key, the
tokens parsed, and afterwards the button's bindings are exactly the parsed
ids (all previous bindings removed). Buttons, panels and tickets are
untouched. -/
theorem rolesPhase_ok (db : DB) (pid pos : Nat) (s : String) (db'' : DB)
    (h : rolesPhase db pid pos s = .ok db'') :
    db''.tickets = db.tickets ∧ db''.ticket_buttons = db.ticket_buttons ∧
    db''.ticket_panels = db.ticket_panels ∧
    ∃ b ids, findButton db pid pos = some b ∧ parseSupportRoles s = .ok ids ∧
      (db''.ticket_button_roles.filter (fun r => r.button_id == b.id)).map (·.role_id)
        = ids := by
  have hframe := rolesPhase_frame _ _ _ _ _ h
  refine ⟨hframe.1, hframe.2.1, hframe.2.2, ?_⟩
  unfold rolesPhase at h
  split at h
  · exact absurd h (by simp)
  next b hb =>
    split at h
    · exact absurd h (by simp)
    next ids hids =>
      split at h
      · exact absurd h (by simp)
      next db3 hins =>
        simp only [Except.ok.injEq] at h
        subst h
        refine ⟨b, ids, hb, hids, ?_⟩
        have h4 := insertRoleRows_filter _ _ _ _ hins
        rw [h4]
        have h5 : (List.filter (fun r => r.button_id == b.id)
            (List.filter (fun r => !(r.button_id == b.id)) db.ticket_button_roles)) = [] := by
          rw [List.filter_filter]
          have : ∀ r : RoleRow, ((r.button_id == b.id) && !(r.button_id == b.id)) = false := by
            intro r; cases hrb : (r.button_id == b.id) <;> simp [hrb]
          simp only [this, List.filter_false]
        simp only [h5, List.map_nil, List.nil_append]

/-- A `success` outcome of `setup_button` always comes from the mutating
tail (the display paths report, the missing-panel path fails). -/
theorem setup_button_success_mut (db : DB) (a : ButtonArgs) (panel : PanelRow)
    (hp : findPanel db a.guild_id a.panel_name = some panel)
    (hs : (setup_button db a).1 = .success) :
    setup_button db a = setup_button_mut db panel.id a := by
  unfold setup_button at hs ⊢
  simp only [hp] at hs ⊢
  by_cases hall : a.button_label = none ∧ a.ticket_title = none ∧
      a.ticket_message = none ∧ a.button_emoji = none ∧ a.button_style = none ∧
      a.ticket_color = none ∧ a.support_roles = none
  · rw [if_pos hall] at hs
    split at hs <;> simp at hs
  · rw [if_neg hall]

/-- A successful mutating tail: the position check passed, the stored
buttons are those of the upsert, and the final state is the upsert alone
(no roles argument) or the roles block applied after it. -/
theorem setup_button_mut_success (db : DB) (pid : Nat) (a : ButtonArgs)
    (hs : (setup_button_mut db pid a).1 = .success) :
    (1 ≤ a.position ∧ a.position ≤ 3) ∧
    (setup_button_mut db pid a).2.ticket_buttons =
      (upsertButtonRow db pid a).ticket_buttons ∧
    (a.support_roles = none →
      (setup_button_mut db pid a).2 = upsertButtonRow db pid a) ∧
    (∀ s, a.support_roles = some s → ∃ db2,
      rolesPhase (upsertButtonRow db pid a) pid a.position s = .ok db2 ∧
      (setup_button_mut db pid a).2 = db2) := by
  unfold setup_button_mut at hs ⊢
  split at hs
  · simp at hs
  next hpos =>
    split at hs
    · simp at hs
    next hstyle =>
      rw [if_neg hpos, if_neg hstyle]
      cases hr : a.support_roles with
      | none =>
        exact ⟨not_not.mp hpos, rfl, fun _ => rfl,
          fun s h => absurd h (by simp)⟩
      | some s =>
        simp only [hr] at hs ⊢
        split at hs
        next e he =>
          cases e <;> simp [RolesErr.toResult] at hs
        next db2 hro =>
          refine ⟨not_not.mp hpos, ?_, ?_, ?_⟩
          · exact (rolesPhase_frame _ _ _ _ _ hro).2.1
          · intro h; exact absurd h (by simp)
          · intro s' h
            cases h
            exact ⟨db2, hro, rfl⟩

/-- `setup_button` leaves the role bindings alone when `support_roles` is
omitted, on every path. -/
theorem setup_button_roles_none (db : DB) (a : ButtonArgs)
    (h : a.support_roles = none) :
    (setup_button db a).2.ticket_button_roles = db.ticket_button_roles := by
  unfold setup_button
  split
  · rfl
  · split
    · split <;> rfl
    · unfold setup_button_mut
      split
      · rfl
      · split
        · rfl
        · simp only [h]
          exact (upsertButtonRow_frame _ _ _).2.2

/-! ### Preservation of the invariants -/

theorem upsertButtonRow_inv (db : DB) (pid : Nat) (a : ButtonArgs)
    (hpos : 1 ≤ a.position ∧ a.position ≤ 3)
    (h : ButtonsInvL db.ticket_buttons) :
    ButtonsInvL (upsertButtonRow db pid a).ticket_buttons := by
  unfold upsertButtonRow
  cases hf : findButton db pid a.position with
  | some b =>
    simp only
    have hg : ∀ q : ButtonRow,
        (if buttonKey pid a.position q then applyButtonUpd a q else q).panel_id
            = q.panel_id ∧
        (if buttonKey pid a.position q then applyButtonUpd a q else q).button_position
            = q.button_position := by
      intro q
      by_cases hk : buttonKey pid a.position q <;> simp [hk, applyButtonUpd]
    constructor
    · refine List.Pairwise.map _ ?_ h.1
      intro x y hxy
      rw [(hg x).1, (hg x).2, (hg y).1, (hg y).2]
      exact hxy
    · intro b2 hb2
      obtain ⟨q, hq, rfl⟩ := List.mem_map.mp hb2
      by_cases hk : buttonKey pid a.position q
      · refine ⟨?_, styleStr a.button_style, ?_, styleStr_mem _⟩
        · rw [(hg q).2]
          exact (h.2 q hq).1
        · simp [hk, applyButtonUpd, coalesce]
      · simpa [hk] using h.2 q hq
  | none =>
    simp only
    unfold findButton at hf
    have hnone := List.find?_eq_none.mp hf
    constructor
    · rw [List.pairwise_append]
      refine ⟨h.1, List.pairwise_singleton _ _, ?_⟩
      intro x hx y hy
      rw [List.mem_singleton] at hy
      subst hy
      have hkey := hnone x hx
      simp only [buttonKey, Bool.and_eq_true, beq_iff_eq, not_and_or] at hkey
      simpa [newButtonRow] using hkey
    · intro b2 hb2
      rcases List.mem_append.mp hb2 with hold | hnew
      · exact h.2 b2 hold
      · rw [List.mem_singleton] at hnew
        subst hnew
        exact ⟨hpos, styleStr a.button_style, rfl, styleStr_mem _⟩

theorem setup_button_buttons_inv (db : DB) (a : ButtonArgs)
    (h : ButtonsInvL db.ticket_buttons) :
    ButtonsInvL (setup_button db a).2.ticket_buttons := by
  unfold setup_button
  split
  · exact h
  next panel hfp =>
    split
    · split <;> exact h
    · unfold setup_button_mut
      split
      · exact h
      next hpos =>
        split
        · exact h
        · cases hr : a.support_roles with
          | none => exact upsertButtonRow_inv _ _ _ (not_not.mp hpos) h
          | some s =>
            show ButtonsInvL (match rolesPhase (upsertButtonRow db panel.id a)
                panel.id a.position s with
              | .error e => (e.toResult, db)
              | .ok db2 => (ButtonResult.success, db2)).2.ticket_buttons
            cases hro : rolesPhase (upsertButtonRow db panel.id a) panel.id
                a.position s with
            | error e => exact h
            | ok db2 =>
              show ButtonsInvL db2.ticket_buttons
              rw [(rolesPhase_frame _ _ _ _ _ hro).2.1]
              exact upsertButtonRow_inv _ _ _ (not_not.mp hpos) h

theorem delete_button_buttons_inv (db : DB) (g : Nat) (n : String) (pos : Nat)
    (h : ButtonsInvL db.ticket_buttons) :
    ButtonsInvL (delete_button db g n pos).2.ticket_buttons := by
  unfold delete_button
  split
  · exact h
  · refine ⟨List.Pairwise.sublist (List.filter_sublist _) h.1, ?_⟩
    intro b hb
    exact h.2 b (List.mem_of_mem_filter hb)

/-- Outcome split of `create_ticket`: on success the new row is appended,
on any failure the database is unchanged. -/
theorem create_ticket_cases (db : DB) (a : CreateArgs) :
    ((create_ticket db a).1 = .success ∧
      (create_ticket db a).2 = { db with tickets := db.tickets ++ [newTicketRow a] }) ∨
    ((create_ticket db a).1 ≠ .success ∧ (create_ticket db a).2 = db) := by
  unfold create_ticket
  split
  · exact Or.inr ⟨by simp, rfl⟩
  · split
    · exact Or.inr ⟨by simp, rfl⟩
    · split
      · exact Or.inr ⟨by simp, rfl⟩
      · split
        · exact Or.inr ⟨by simp, rfl⟩
        · split
          · exact Or.inr ⟨by simp, rfl⟩
          · split
            · exact Or.inr ⟨by simp, rfl⟩
            · exact Or.inl ⟨rfl, rfl⟩

/-- Outcome split of `close_ticket`: on `closed` the update is applied, on
any failure the database is unchanged. -/
theorem close_ticket_cases (db : DB) (a : CloseArgs) :
    ((close_ticket db a).1 = .closed ∧
      (close_ticket db a).2 = { db with tickets := db.tickets.map (closeUpd a) } ∧
      ∃ t, findTicket db a.channel_id = some t) ∨
    ((close_ticket db a).1 ≠ .closed ∧ (close_ticket db a).2 = db) := by
  unfold close_ticket
  split
  · exact Or.inr ⟨by simp, rfl⟩
  next t ht =>
    split
    · exact Or.inr ⟨by simp, rfl⟩
    · exact Or.inl ⟨rfl, rfl, t, ht⟩

theorem applyOp_inv (s : Sys) (o : Op) (h : SysInv s) : SysInv (applyOp s o) := by
  cases o with
  | panel a =>
    refine ⟨?_, ?_⟩
    · show TicketsInvL (setup_panel s.db a).2.tickets s.channels
      rw [(setup_panel_frame s.db a).1]
      exact h.1
    · show ButtonsInvL (setup_panel s.db a).2.ticket_buttons
      rw [(setup_panel_frame s.db a).2.1]
      exact h.2
  | button a =>
    refine ⟨?_, ?_⟩
    · show TicketsInvL (setup_button s.db a).2.tickets s.channels
      rw [(setup_button_frame s.db a).1]
      exact h.1
    · exact setup_button_buttons_inv s.db a h.2
  | delPanel g n =>
    refine ⟨?_, ?_⟩
    · show TicketsInvL (delete_panel s.db g n).2.tickets s.channels
      rw [(delete_panel_frame s.db g n).1]
      exact h.1
    · show ButtonsInvL (delete_panel s.db g n).2.ticket_buttons
      rw [(delete_panel_frame s.db g n).2.1]
      exact h.2
  | delButton g n pos =>
    refine ⟨?_, ?_⟩
    · show TicketsInvL (delete_button s.db g n pos).2.tickets s.channels
      rw [(delete_button_frame s.db g n pos).1]
      exact h.1
    · exact delete_button_buttons_inv s.db g n pos h.2
  | create a =>
    simp only [applyOp]
    by_cases hguard : a.new_channel_id ∈ s.channels ∨
        (s.db.tickets.any fun t => t.channel_id == a.new_channel_id) = true
    · rw [if_pos hguard]; exact h
    · rw [if_neg hguard]
      push_neg at hguard
      have hfresh : ∀ t ∈ s.db.tickets, t.channel_id ≠ a.new_channel_id := by
        intro t ht
        have hany : (s.db.tickets.any fun t => t.channel_id == a.new_channel_id)
            = false := by
          cases hx : (s.db.tickets.any fun t => t.channel_id == a.new_channel_id)
          · rfl
          · exact absurd hx hguard.2
        have := List.any_eq_false.mp hany t ht
        simpa using this
      rcases create_ticket_cases s.db a with ⟨hsuc, hdb2⟩ | ⟨hfail, hdb2⟩
      · rw [hdb2, if_pos hsuc]
        refine ⟨⟨?_, ?_⟩, h.2⟩
        · rw [List.pairwise_append]
          refine ⟨h.1.1, List.pairwise_singleton _ _, ?_⟩
          intro x hx y hy
          rw [List.mem_singleton] at hy
          subst hy
          exact hfresh x hx
        · intro t ht hclosed
          rcases List.mem_append.mp ht with hold | hnew
          · intro hmem
            rcases List.mem_cons.mp hmem with heq | hmem2
            · exact hfresh t hold heq
            · exact h.1.2 t hold hclosed hmem2
          · rw [List.mem_singleton] at hnew
            subst hnew
            exact absurd rfl hclosed
      · rw [hdb2, if_neg hfail]
        exact h
  | close a =>
    simp only [applyOp]
    by_cases hch : a.channel_id ∈ s.channels
    · rw [if_pos hch]
      rcases close_ticket_cases s.db a with ⟨hsuc, hdb2, _⟩ | ⟨hfail, hdb2⟩
      · rw [hdb2, if_pos hsuc]
        have hgch : ∀ q : TicketRow, (closeUpd a q).channel_id = q.channel_id := by
          intro q
          unfold closeUpd
          by_cases hk : (q.channel_id == a.channel_id) <;> simp [hk]
        refine ⟨⟨?_, ?_⟩, h.2⟩
        · refine List.Pairwise.map _ ?_ h.1.1
          intro x y hxy
          rw [hgch x, hgch y]
          exact hxy
        · intro t2 ht2 hclosed
          obtain ⟨q, hq, rfl⟩ := List.mem_map.mp ht2
          rw [hgch q]
          intro hmem
          have hmem2 := List.mem_filter.mp hmem
          by_cases hk : (q.channel_id == a.channel_id)
          · exact absurd (beq_iff_eq.mp hk) (by simpa using hmem2.2)
          · have hq2 : closeUpd a q = q := by simp [closeUpd, hk]
            rw [hq2] at hclosed
            exact h.1.2 q hq hclosed hmem2.1
      · rw [hdb2, if_neg hfail]
        exact h
    · rw [if_neg hch]
      exact h

/-- Every operation sequence maintains the invariant. -/
theorem foldl_inv (l : List Op) : ∀ s : Sys, SysInv s → SysInv (l.foldl applyOp s) := by
  induction l with
  | nil => intro s h; exact h
  | cons o rest ih => intro s h; exact ih _ (applyOp_inv _ _ h)

theorem execOps_inv (l : List Op) : SysInv (execOps l) := by
  refine foldl_inv l {} ⟨⟨List.Pairwise.nil, ?_⟩, List.Pairwise.nil, ?_⟩ <;> simp

theorem execOps_append (l : List Op) (o : Op) :
    execOps (l ++ [o]) = applyOp (execOps l) o := by
  unfold execOps
  rw [List.foldl_append]
  rfl

/-- How one operation can change the ticket row of a channel, in an
invariant state: not at all; or the operation is the create of that channel
and the row appears with `closed_at = NULL`; or the operation is a close of
that channel, the row was open, and exactly `closed_at` is set. -/
theorem applyOp_ticket_char (s : Sys) (o : Op) (c : Nat) (hinv : SysInv s) :
    ticketAt (applyOp s o) c = ticketAt s c
    ∨ (ticketAt s c = none ∧ ∃ ca, o = .create ca ∧ ca.new_channel_id = c ∧
        ticketAt (applyOp s o) c = some (newTicketRow ca))
    ∨ (∃ r ka, o = .close ka ∧ ka.channel_id = c ∧ ticketAt s c = some r ∧
        r.closed_at = none ∧
        ticketAt (applyOp s o) c = some { r with closed_at := some ka.now }) := by
  cases o with
  | panel a =>
    left
    show findTicket (setup_panel s.db a).2 c = findTicket s.db c
    unfold findTicket
    rw [(setup_panel_frame s.db a).1]
  | button a =>
    left
    show findTicket (setup_button s.db a).2 c = findTicket s.db c
    unfold findTicket
    rw [(setup_button_frame s.db a).1]
  | delPanel g n =>
    left
    show findTicket (delete_panel s.db g n).2 c = findTicket s.db c
    unfold findTicket
    rw [(delete_panel_frame s.db g n).1]
  | delButton g n pos =>
    left
    show findTicket (delete_button s.db g n pos).2 c = findTicket s.db c
    unfold findTicket
    rw [(delete_button_frame s.db g n pos).1]
  | create a =>
    simp only [applyOp]
    by_cases hguard : a.new_channel_id ∈ s.channels ∨
        (s.db.tickets.any fun t => t.channel_id == a.new_channel_id) = true
    · rw [if_pos hguard]; left; rfl
    · rw [if_neg hguard]
      push_neg at hguard
      have hfresh : ∀ t ∈ s.db.tickets, t.channel_id ≠ a.new_channel_id := by
        intro t ht
        have hany : (s.db.tickets.any fun t => t.channel_id == a.new_channel_id)
            = false := by
          cases hx : (s.db.tickets.any fun t => t.channel_id == a.new_channel_id)
          · rfl
          · exact absurd hx hguard.2
        simpa using List.any_eq_false.mp hany t ht
      rcases create_ticket_cases s.db a with ⟨hsuc, hdb2⟩ | ⟨hfail, hdb2⟩
      · by_cases hc : c = a.new_channel_id
        · subst hc
          right; left
          have hnone : ticketAt s a.new_channel_id = none := by
            unfold ticketAt findTicket
            refine List.find?_eq_none.mpr ?_
            intro x hx
            simpa using hfresh x hx
          refine ⟨hnone, a, rfl, rfl, ?_⟩
          show findTicket (create_ticket s.db a).2 a.new_channel_id
              = some (newTicketRow a)
          rw [hdb2]
          unfold findTicket
          show (s.db.tickets ++ [newTicketRow a]).find?
              (fun t => t.channel_id == a.new_channel_id) = some (newTicketRow a)
          rw [find?_append_none _ _ _ (by
            refine List.find?_eq_none.mpr ?_
            intro x hx
            simpa using hfresh x hx)]
          simp [List.find?, newTicketRow]
        · left
          show findTicket (create_ticket s.db a).2 c = findTicket s.db c
          rw [hdb2]
          unfold findTicket
          show (s.db.tickets ++ [newTicketRow a]).find? (fun t => t.channel_id == c)
              = s.db.tickets.find? (fun t => t.channel_id == c)
          refine find?_append_single_neg _ _ _ ?_
          simp [newTicketRow]
          exact fun h => absurd h.symm hc
      · left
        show findTicket (create_ticket s.db a).2 c = findTicket s.db c
        rw [hdb2]
  | close a =>
    simp only [applyOp]
    by_cases hch : a.channel_id ∈ s.channels
    · rw [if_pos hch]
      rcases close_ticket_cases s.db a with ⟨hsuc, hdb2, t, ht⟩ | ⟨hfail, hdb2⟩
      · have hgch : ∀ q : TicketRow, (closeUpd a q).channel_id = q.channel_id := by
          intro q
          unfold closeUpd
          by_cases hk : (q.channel_id == a.channel_id) <;> simp [hk]
        by_cases hc : c = a.channel_id
        · subst hc
          right; right
          have htc : t.channel_id = a.channel_id := by
            have := List.find?_some ht
            simpa using this
          have hopen : t.closed_at = none := by
            cases hcl : t.closed_at with
            | none => rfl
            | some v =>
              have hmem := List.mem_of_find?_eq_some ht
              have := hinv.1.2 t hmem (by simp [hcl])
              rw [htc] at this
              exact absurd hch this
          refine ⟨t, a, rfl, rfl, ht, hopen, ?_⟩
          show findTicket (close_ticket s.db a).2 a.channel_id = _
          rw [hdb2]
          unfold findTicket at ht ⊢
          show (s.db.tickets.map (closeUpd a)).find?
              (fun t => t.channel_id == a.channel_id) = _
          rw [find?_map_congr _ _ (fun q => by rw [hgch q]), ht]
          simp only [Option.map_some']
          unfold closeUpd
          rw [if_pos (by simpa using htc)]
        · left
          show findTicket (close_ticket s.db a).2 c = findTicket s.db c
          rw [hdb2]
          unfold findTicket
          show (s.db.tickets.map (closeUpd a)).find? (fun t => t.channel_id == c)
              = s.db.tickets.find? (fun t => t.channel_id == c)
          rw [find?_map_congr _ _ (fun q => by rw [hgch q])]
          cases hf : s.db.tickets.find? (fun t => t.channel_id == c) with
          | none => rfl
          | some r =>
            have hrc : r.channel_id = c := by simpa using List.find?_some hf
            simp only [Option.map_some']
            unfold closeUpd
            rw [if_neg (by simp [hrc]; exact hc)]
      · left
        show findTicket (close_ticket s.db a).2 c = findTicket s.db c
        rw [hdb2]
    · rw [if_neg hch]; left; rfl

/-- Corollary of `upsertButtonRow_find` for an existing conflicting row. -/
theorem upsertButtonRow_find_some (db : DB) (pid : Nat) (a : ButtonArgs)
    (b : ButtonRow) (hb : findButton db pid a.position = some b) :
    findButton (upsertButtonRow db pid a) pid a.position =
      some (applyButtonUpd a b) := by
  rw [upsertButtonRow_find, hb]

/-- Corollary of `upsertButtonRow_find` for a fresh key. -/
theorem upsertButtonRow_find_none (db : DB) (pid : Nat) (a : ButtonArgs)
    (hb : findButton db pid a.position = none) :
    findButton (upsertButtonRow db pid a) pid a.position =
      some (newButtonRow db pid a) := by
  rw [upsertButtonRow_find, hb]

/-- After a successful `setup_button`, the row stored at the command's
(panel, position) key is the coalesced update of the old row, or the fresh
row. -/
theorem setup_button_success_find (db : DB) (a : ButtonArgs) (panel : PanelRow)
    (hp : findPanel db a.guild_id a.panel_name = some panel)
    (hs : (setup_button db a).1 = .success) :
    findButton (setup_button db a).2 panel.id a.position =
      (match findButton db panel.id a.position with
        | some b => some (applyButtonUpd a b)
        | none => some (newButtonRow db panel.id a)) := by
  have hmut := setup_button_success_mut db a panel hp hs
  have hs2 : (setup_button_mut db panel.id a).1 = .success := by
    rw [← hmut]; exact hs
  have hspec := setup_button_mut_success db panel.id a hs2
  rw [hmut]
  show ((setup_button_mut db panel.id a).2.ticket_buttons).find?
    (buttonKey panel.id a.position) = _
  rw [hspec.2.1]
  exact upsertButtonRow_find db panel.id a

/-- Permission rule of `close_ticket` for a registered ticket: success
exactly for an administrator or a holder of a bound support role; otherwise
a permission-denied failure with the database unchanged. -/
theorem close_ticket_spec (db : DB) (a : CloseArgs) (t : TicketRow)
    (ht : findTicket db a.channel_id = some t) :
    ((close_ticket db a).1 = .closed ↔
      (a.user_is_admin = true ∨
        ∃ r ∈ rolesOfButton db t.button_id, r ∈ a.user_roles)) ∧
    ((close_ticket db a).1 ≠ .closed →
      close_ticket db a = (.permissionDenied, db)) := by
  unfold close_ticket
  simp only [ht]
  by_cases hcond : ¬a.user_is_admin = true ∧
      ¬((rolesOfButton db t.button_id).any fun r => a.user_roles.contains r) = true
  · rw [if_pos hcond]
    refine ⟨⟨fun h => absurd h (by simp), fun h => ?_⟩, fun _ => rfl⟩
    exfalso
    rcases h with hadm | ⟨r, hr, hru⟩
    · exact hcond.1 hadm
    · refine hcond.2 (List.any_eq_true.mpr ⟨r, hr, ?_⟩)
      simpa using hru
  · rw [if_neg hcond]
    refine ⟨⟨fun _ => ?_, fun _ => rfl⟩, fun h => absurd rfl h⟩
    by_cases hadm : a.user_is_admin = true
    · exact Or.inl hadm
    · right
      have hany : ((rolesOfButton db t.button_id).any
          fun r => a.user_roles.contains r) = true := by
        by_contra hno
        exact hcond ⟨hadm, hno⟩
      obtain ⟨r, hr, hcont⟩ := List.any_eq_true.mp hany
      exact ⟨r, hr, by simpa using hcont⟩

/-! ### The claims -/

/-- Claim C1: for every channel identifier `c`, `get_ticket_id c` equals
`(c & 0x3FF) XOR ((c >> 10) & 0x3FF)`; it is a pure deterministic function
of `c` and its result always lies in [0, 1023]. -/
theorem C1_get_ticket_id_hash (c : Nat) :
    get_ticket_id c = (c &&& 0x3FF) ^^^ ((c >>> 10) &&& 0x3FF) ∧
    get_ticket_id c = get_ticket_id c ∧
    get_ticket_id c ≤ 1023 := by
  refine ⟨rfl, rfl, ?_⟩
  have hpow : (2 : Nat) ^ 10 = 1024 := by norm_num
  have h3 : (c &&& 0x3FF) ^^^ ((c >>> 10) &&& 0x3FF) < 2 ^ 10 :=
    Nat.xor_lt_two_pow
      (by rw [hpow]; exact Nat.lt_succ_of_le Nat.and_le_right)
      (by rw [hpow]; exact Nat.lt_succ_of_le Nat.and_le_right)
  rw [hpow] at h3
  exact Nat.lt_succ_iff.mp h3

/-- Claim C2, as stated, is false for the visual-style field: a stored
`danger` style is overwritten with the default `primary` by an upsert that
supplies only an emoji, because the bound style parameter is never NULL and
`COALESCE(excluded.button_style, button_style)` therefore always takes the
new value. -/
theorem C2_counterexample :
    buttonFix.button_style = some "danger" ∧
    (setup_button dbFix emojiArgs).1 = .success ∧
    ((findButton (setup_button dbFix emojiArgs).2 1 1).map
      (fun b => b.button_style)) = some (some "primary") ∧
    some (some "primary") ≠ some (some "danger") := by decide

/-- Claim C2 (amended): in a successful button upsert against an existing
row, every *other* configurable field for which no new value is supplied
keeps its stored value (label, ticket title, ticket message, emoji, ticket
color); the visual style however is always overwritten — with the supplied
style, or with the literal default "primary" when the style argument is
omitted. -/
theorem C2_button_upsert_preserves (db : DB) (a : ButtonArgs)
    (panel : PanelRow) (b : ButtonRow)
    (hp : findPanel db a.guild_id a.panel_name = some panel)
    (hb : findButton db panel.id a.position = some b)
    (_hone : ¬(a.button_label = none ∧ a.ticket_title = none ∧
      a.ticket_message = none ∧ a.button_emoji = none ∧ a.button_style = none ∧
      a.ticket_color = none ∧ a.support_roles = none))
    (hs : (setup_button db a).1 = .success) :
    ∃ b', findButton (setup_button db a).2 panel.id a.position = some b' ∧
      (a.button_label = none → b'.button_label = b.button_label) ∧
      (a.ticket_title = none → b'.ticket_title = b.ticket_title) ∧
      (a.ticket_message = none → b'.ticket_message = b.ticket_message) ∧
      (a.button_emoji = none → b'.button_emoji = b.button_emoji) ∧
      (a.ticket_color = none → b'.ticket_color = b.ticket_color) ∧
      b'.button_style = some (styleStr a.button_style) := by
  refine ⟨applyButtonUpd a b, ?_, ?_, ?_, ?_, ?_, ?_, rfl⟩
  · rw [setup_button_success_find db a panel hp hs, hb]
  · intro h
    show coalesce a.button_label b.button_label = b.button_label
    rw [h, coalesce_none]
  · intro h
    show coalesce a.ticket_title b.ticket_title = b.ticket_title
    rw [h, coalesce_none]
  · intro h
    show coalesce a.ticket_message b.ticket_message = b.ticket_message
    rw [h, coalesce_none]
  · intro h
    show coalesce a.button_emoji b.button_emoji = b.button_emoji
    rw [h, coalesce_none]
  · intro h
    show coalesce a.ticket_color b.ticket_color = b.ticket_color
    rw [h, coalesce_none]

/-- Witness for C2: updating only the emoji of the stored button keeps its
label "A". -/
theorem C2_witness :
    ∃ b', findButton (setup_button dbFix emojiArgs).2 1 1 = some b' ∧
      b'.button_label = some "A" := by
  obtain ⟨b', h1, h2, _⟩ := C2_button_upsert_preserves dbFix emojiArgs
    panelFix buttonFix (by decide) (by decide) (by decide) (by decide)
  exact ⟨b', h1, by rw [h2 rfl]; rfl⟩

/-- Claim C3, as stated, is false for a roles argument with a duplicated
id: `"5,5"` violates `UNIQUE(button_id, role_id)` on the second insert, the
whole command aborts and rolls back, and the previous binding (role 7)
survives instead of being replaced by 5. -/
theorem C3_counterexample :
    setup_button dbFix dupRolesArgs = (.integrityError, dbFix) ∧
    ((setup_button dbFix dupRolesArgs).2.ticket_button_roles.map
      (fun r => r.role_id)) = [7] := by decide

/-- Claim C3 (amended): omitting `support_roles` leaves the binding table
untouched; when the argument is present and the command succeeds, the
button's bindings afterwards are exactly the parsed ids — in particular the
empty string clears all bindings; a duplicated id makes the whole command
fail with no change (see the counterexample). -/
theorem C3_support_roles_replacement (db : DB) (a : ButtonArgs)
    (panel : PanelRow)
    (hp : findPanel db a.guild_id a.panel_name = some panel) :
    (a.support_roles = none →
      (setup_button db a).2.ticket_button_roles = db.ticket_button_roles) ∧
    (∀ s, a.support_roles = some s → (setup_button db a).1 = .success →
      ∃ ids b', parseSupportRoles s = .ok ids ∧
        findButton (setup_button db a).2 panel.id a.position = some b' ∧
        ((setup_button db a).2.ticket_button_roles.filter
          (fun r => r.button_id == b'.id)).map (fun r => r.role_id) = ids ∧
        (s = "" → ids = [])) := by
  constructor
  · intro h
    exact setup_button_roles_none db a h
  · intro s hr hs
    have hmut := setup_button_success_mut db a panel hp hs
    have hs2 : (setup_button_mut db panel.id a).1 = .success := by
      rw [← hmut]; exact hs
    have hspec := setup_button_mut_success db panel.id a hs2
    obtain ⟨db2, hro, hdb2⟩ := hspec.2.2.2 s hr
    obtain ⟨hT, hB, hP, b, ids, hfb, hids, hfilter⟩ := rolesPhase_ok _ _ _ _ _ hro
    refine ⟨ids, b, hids, ?_, ?_, ?_⟩
    · rw [hmut, hdb2]
      unfold findButton at hfb ⊢
      rw [hB]
      exact hfb
    · rw [hmut, hdb2]
      exact hfilter
    · intro he
      subst he
      rw [show parseSupportRoles "" = Except.ok ([] : List Int) from by decide] at hids
      cases hids
      rfl

/-- Witness for C3: setting `support_roles := "5"` replaces the binding 7
with exactly [5]. -/
theorem C3_witness :
    ∃ ids b', parseSupportRoles "5" = .ok ids ∧
      findButton (setup_button dbFix oneRoleArgs).2 1 1 = some b' ∧
      ((setup_button dbFix oneRoleArgs).2.ticket_button_roles.filter
        (fun r => r.button_id == b'.id)).map (fun r => r.role_id) = ids ∧
      ("5" = "" → ids = []) :=
  (C3_support_roles_replacement dbFix oneRoleArgs panelFix (by decide)).2
    "5" rfl (by decide)

/-- Claim C4: for a registered ticket, `close_ticket` succeeds exactly when
the actor has administrator rights or holds a bound support role (an
administrator succeeds even with zero bound roles); otherwise it fails with
permission-denied and the database — the ticket row in particular — is
unchanged. -/
theorem C4_close_ticket_permission (db : DB) (a : CloseArgs) (t : TicketRow)
    (ht : findTicket db a.channel_id = some t) :
    ((close_ticket db a).1 = .closed ↔
      (a.user_is_admin = true ∨
        ∃ r ∈ rolesOfButton db t.button_id, r ∈ a.user_roles)) ∧
    ((close_ticket db a).1 ≠ .closed →
      close_ticket db a = (.permissionDenied, db)) :=
  close_ticket_spec db a t ht

/-- Witness for C4: a holder of bound role 7 closes the ticket; an
administrator closes it even when holding no roles; a stranger is denied
with the database unchanged. -/
theorem C4_witness :
    (close_ticket dbTicket closeByRole).1 = .closed ∧
    (close_ticket dbTicket closeByAdmin).1 = .closed ∧
    close_ticket dbTicket closeByStranger = (.permissionDenied, dbTicket) := by
  refine ⟨?_, ?_, ?_⟩
  · exact (C4_close_ticket_permission dbTicket closeByRole ticketFix
      (by decide)).1.mpr (Or.inr ⟨7, by decide, by decide⟩)
  · exact (C4_close_ticket_permission dbTicket closeByAdmin ticketFix
      (by decide)).1.mpr (Or.inl rfl)
  · refine (C4_close_ticket_permission dbTicket closeByStranger ticketFix
      (by decide)).2 ?_
    decide

/-- Claim C5: the panel upsert with all optional fields absent never
mutates stored state; it displays the stored configuration verbatim when
the panel exists and reports a not-configured failure otherwise. -/
theorem C5_setup_panel_reads_only (db : DB) (a : PanelArgs)
    (h : a.category = none ∧ a.log_channel = none ∧ a.panel_title = none ∧
      a.panel_description = none) :
    (setup_panel db a).2 = db ∧
    (∀ p, findPanel db a.guild_id a.panel_name = some p →
      (setup_panel db a).1 =
        .showConfig p.panel_title p.panel_description p.category_id
          p.log_channel_id) ∧
    (findPanel db a.guild_id a.panel_name = none →
      (setup_panel db a).1 = .notConfigured) := by
  unfold setup_panel
  rw [if_pos h]
  cases hf : findPanel db a.guild_id a.panel_name with
  | some p =>
    refine ⟨rfl, fun q hq => ?_, fun hq => ?_⟩
    · cases hq
      rfl
    · exact absurd hq (by simp)
  | none =>
    refine ⟨rfl, fun q hq => ?_, fun hq => rfl⟩
    exact absurd hq (by simp)

/-- Witness for C5: the argument-free panel command on `dbFix` displays the
stored category and changes nothing. -/
theorem C5_witness :
    (setup_panel dbFix panelArgsP).2 = dbFix ∧
    (setup_panel dbFix panelArgsP).1 = .showConfig none none (some 10) none ∧
    (setup_panel dbFix panelArgsQ).1 = .notConfigured := by
  have h1 := C5_setup_panel_reads_only dbFix panelArgsP ⟨rfl, rfl, rfl, rfl⟩
  have h2 := C5_setup_panel_reads_only dbFix panelArgsQ ⟨rfl, rfl, rfl, rfl⟩
  exact ⟨h1.1, h1.2.1 panelFix (by decide), h2.2.2 (by decide)⟩

/-- Claim C6: at every reachable state there is at most one button row per
(panel, position) and every stored position lies in 1..3; a plain INSERT
into `ticket_buttons` at an occupied (panel, position) is rejected by the
UNIQUE constraint (the command-level upsert turns this conflict into an
update instead); and three buttons at positions 1, 2, 3 of one panel are
created successfully. -/
theorem C6_button_position_uniqueness :
    (∀ l : List Op,
      (execOps l).db.ticket_buttons.Pairwise (fun b1 b2 =>
        b1.panel_id ≠ b2.panel_id ∨ b1.button_position ≠ b2.button_position) ∧
      ∀ b ∈ (execOps l).db.ticket_buttons,
        1 ≤ b.button_position ∧ b.button_position ≤ 3) ∧
    (∀ (db : DB) (pid : Nat) (lb tt tm : Option String) (pos : Nat)
        (be bs tc : Option String),
      (∃ b ∈ db.ticket_buttons, b.panel_id = pid ∧ b.button_position = pos) →
      insertButtonRow db pid lb tt tm pos be bs tc = .error ()) ∧
    ((setup_button dbPanelOnly (bArgsAt 1)).1 = .success ∧
      (setup_button dbStep1 (bArgsAt 2)).1 = .success ∧
      (setup_button dbStep2 (bArgsAt 3)).1 = .success ∧
      dbStep3.ticket_buttons.length = 3) := by
  refine ⟨?_, ?_, by decide⟩
  · intro l
    have h := (execOps_inv l).2
    exact ⟨h.1, fun b hb => (h.2 b hb).1⟩
  · intro db pid lb tt tm pos be bs tc ⟨b, hb, hbp, hbpos⟩
    unfold insertButtonRow
    split
    · rfl
    · split
      · rfl
      · split
        · rfl
        next hany =>
          exfalso
          refine hany (List.any_eq_true.mpr ⟨b, hb, ?_⟩)
          simp [hbp, hbpos]

/-- Witness for C6: inserting a second button at the occupied key (1, 1)
of `dbFix` is rejected. -/
theorem C6_witness :
    insertButtonRow dbFix 1 none none none 1 none none none = .error () :=
  C6_button_position_uniqueness.2.1 dbFix 1 none none none 1 none none none
    ⟨buttonFix, by decide, rfl, rfl⟩

/-- Claim C7: under every operation sequence, a channel's ticket row is
unchanged by a step, or the step is the create of that channel and the row
appears with `closed_at = NULL`, or the step is a close of that channel
while the row was still open and exactly `closed_at` is set — so the row is
created once, `closed_at` is NULL until a close succeeds, and a set
`closed_at` is never modified again. -/
theorem C7_ticket_row_lifecycle (l : List Op) (o : Op) (c : Nat) :
    ticketAt (execOps (l ++ [o])) c = ticketAt (execOps l) c
    ∨ (ticketAt (execOps l) c = none ∧ ∃ ca, o = .create ca ∧
        ca.new_channel_id = c ∧ (newTicketRow ca).closed_at = none ∧
        ticketAt (execOps (l ++ [o])) c = some (newTicketRow ca))
    ∨ (∃ r ka, o = .close ka ∧ ka.channel_id = c ∧
        ticketAt (execOps l) c = some r ∧ r.closed_at = none ∧
        ticketAt (execOps (l ++ [o])) c =
          some { r with closed_at := some ka.now }) := by
  rw [execOps_append]
  rcases applyOp_ticket_char (execOps l) o c (execOps_inv l) with h | ⟨h1, ca, h2⟩ | h
  · exact Or.inl h
  · exact Or.inr (Or.inl ⟨h1, ca, h2.1, h2.2.1, rfl, h2.2.2⟩)
  · exact Or.inr (Or.inr h)

/-- Claim C8, as stated, is false: the token `<@&x>` is neither a bare
numeric id nor a well-formed role mention, yet instead of being skipped it
raises an uncaught ValueError — the whole command fails and rolls back. -/
theorem C8_counterexample :
    parseSupportRoles "<@&x>,5" = .error () ∧
    setup_button dbFix badTokenArgs = (.valueError, dbFix) := by decide

/-- Claim C8 (amended): a token that does *not* have the mention wrapper
shape and fails integer parsing is silently dropped, leaving the remaining
tokens' result unchanged; but a token with the wrapper shape whose interior
fails integer parsing aborts the whole parse. -/
theorem C8_malformed_token_handling :
    (∀ (xs ys : List (List Char)) (t : List Char),
      ¬(startsMention (stripChars t) = true ∧ endsGt (stripChars t) = true) →
      pyInt (stripChars t) = none →
      parseRoleTokens (xs ++ t :: ys) = parseRoleTokens (xs ++ ys)) ∧
    (∀ (xs ys : List (List Char)) (t : List Char),
      startsMention (stripChars t) = true → endsGt (stripChars t) = true →
      pyInt (((stripChars t).drop 3).dropLast) = none →
      parseRoleTokens (xs ++ t :: ys) = .error ()) := by
  constructor
  · intro xs ys t hshape hbad
    induction xs with
    | nil =>
      simp only [List.nil_append, parseRoleTokens]
      rw [if_neg (by
        intro hc
        exact hshape (Bool.and_eq_true _ _ |>.mp hc))]
      rw [hbad]
    | cons x xs ih =>
      simp only [List.cons_append, parseRoleTokens, List.append_eq]
      split
      · cases hpx : pyInt (((stripChars x).drop 3).dropLast) with
        | none => rfl
        | some n => rw [ih]
      · cases hpx : pyInt (stripChars x) with
        | none => exact ih
        | some n => rw [ih]
  · intro xs ys t h1 h2 hbad
    induction xs with
    | nil =>
      simp only [List.nil_append, parseRoleTokens]
      rw [if_pos (by rw [Bool.and_eq_true]; exact ⟨h1, h2⟩)]
      rw [hbad]
    | cons x xs ih =>
      simp only [List.cons_append, parseRoleTokens, List.append_eq]
      split
      · cases hpx : pyInt (((stripChars x).drop 3).dropLast) with
        | none => rfl
        | some n => rw [ih]
      · cases hpx : pyInt (stripChars x) with
        | none => exact ih
        | some n => rw [ih]

/-- Witness for C8: the plain malformed token "z" is dropped and the rest
of the parse is unaffected. -/
theorem C8_witness :
    pyInt (stripChars "z".data) = none ∧
    parseRoleTokens (["5".data] ++ "z".data :: ["7".data]) =
      parseRoleTokens (["5".data] ++ ["7".data]) :=
  ⟨by decide, C8_malformed_token_handling.1 ["5".data] ["7".data] "z".data
    (by decide) (by decide)⟩

/-- Claim C9: the support-role lookup for a ticket channel always yields a
list, never null or an error: the empty list when the channel has no ticket
row or the ticket's button reference is NULL (a default-button ticket) —
and consequently such a ticket can be closed exactly by an administrator. -/
theorem C9_role_lookup_total (db : DB) (c : Nat) (a : CloseArgs) :
    (findTicket db c = none → get_ticket_button_roles db c = []) ∧
    (∀ t, findTicket db c = some t → t.button_id = none →
      get_ticket_button_roles db c = []) ∧
    (∀ t, findTicket db a.channel_id = some t → t.button_id = none →
      ((close_ticket db a).1 = .closed ↔ a.user_is_admin = true)) := by
  refine ⟨?_, ?_, ?_⟩
  · intro h
    unfold get_ticket_button_roles
    rw [h]
  · intro t ht hb
    unfold get_ticket_button_roles
    simp only [ht, hb]
  · intro t ht hb
    have h := (close_ticket_spec db a t ht).1
    rw [h]
    constructor
    · intro hc
      rcases hc with hadm | ⟨r, hr, _⟩
      · exact hadm
      · rw [hb] at hr
        exact absurd hr (by simp [rolesOfButton])
    · exact Or.inl

/-- Witness for C9: the default-button ticket in channel 6 yields the empty
role list and is closable by the administrator alone. -/
theorem C9_witness :
    get_ticket_button_roles dbTicketDefault 99 = [] ∧
    get_ticket_button_roles dbTicketDefault 6 = [] ∧
    (close_ticket dbTicketDefault closeDefaultAdmin).1 = .closed ∧
    (close_ticket dbTicketDefault closeDefaultRole).1 ≠ .closed := by
  have h := C9_role_lookup_total dbTicketDefault 99 closeDefaultAdmin
  have h2 := C9_role_lookup_total dbTicketDefault 6 closeDefaultRole
  refine ⟨h.1 (by decide), h2.2.1 ticketDefaultFix (by decide) rfl, ?_, ?_⟩
  · exact (h.2.2 ticketDefaultFix (by decide) rfl).mpr rfl
  · intro hc
    have hfalse := (h2.2.2 ticketDefaultFix (by decide) rfl).mp hc
    exact absurd hfalse (by decide)

/-- Claim C10: every button row ever stored has a non-NULL style among the
six enum values; and when the style argument is omitted, a successful
upsert writes the literal default "primary" into the row. -/
theorem C10_style_never_null :
    (∀ l : List Op, ∀ b ∈ (execOps l).db.ticket_buttons,
      ∃ st, b.button_style = some st ∧ st ∈ allowedStyles) ∧
    (∀ (db : DB) (a : ButtonArgs) (panel : PanelRow),
      findPanel db a.guild_id a.panel_name = some panel →
      (setup_button db a).1 = .success → a.button_style = none →
      ∃ b', findButton (setup_button db a).2 panel.id a.position = some b' ∧
        b'.button_style = some "primary") := by
  constructor
  · intro l b hb
    exact ((execOps_inv l).2.2 b hb).2
  · intro db a panel hp hs hnone
    have hfind := setup_button_success_find db a panel hp hs
    cases hfb : findButton db panel.id a.position with
    | some b =>
      rw [hfb] at hfind
      refine ⟨applyButtonUpd a b, hfind, ?_⟩
      show coalesce (some (styleStr a.button_style)) b.button_style = some "primary"
      rw [hnone, coalesce_some]
      rfl
    | none =>
      rw [hfb] at hfind
      refine ⟨newButtonRow db panel.id a, hfind, ?_⟩
      show some (styleStr a.button_style) = some "primary"
      rw [hnone]
      rfl

/-- Witness for C10: the emoji-only upsert on the stored `danger` button
writes style "primary". -/
theorem C10_witness :
    ∃ b', findButton (setup_button dbFix emojiArgs).2 1 1 = some b' ∧
      b'.button_style = some "primary" :=
  C10_style_never_null.2 dbFix emojiArgs panelFix (by decide) (by decide) rfl

end Tickets
